import Mathlib

/-!
Verification of src/grass-checker.py.

The script is embedded shallowly: Python JSON values become the inductive
type PyVal, the dictionary/iteration operations the script performs become
functions returning Except PyErr (Python exceptions), and the network is
dependency-injected as a FetchOutcome (network failure, or an HTTP status
with a JSON body).  The main routine is modelled in
ExceptT Nat (StateM Trace): throwing models process termination
(sys.exit or an uncaught exception) with the given exit status, and the
state records which network calls were performed.
-/

/-- Python values as returned by response.json(): the JSON fragment of the
Python data model, enough to run the dictionary and iteration operations that
grass-checker.py performs on the decoded response. -/
inductive PyVal where
  | none : PyVal
  | bool : Bool → PyVal
  | int : Int → PyVal
  | str : String → PyVal
  | list : List PyVal → PyVal
  | dict : List (String × PyVal) → PyVal

/-- Python exceptions relevant to grass-checker.py.  requestException covers
requests.exceptions.RequestException (network failure, raise_for_status).
keyError and typeError are the two exceptions caught by the second except
clause; attributeError (calling .get on a non-dict) and unboundLocalError
(reading an unassigned local) are NOT caught anywhere in the script. -/
inductive PyErr where
  | requestException
  | keyError
  | typeError
  | attributeError
  | unboundLocalError
deriving Repr, DecidableEq

/-- Python d.get(key, dflt): on a dict, return the stored value or the
default; on any non-dict value, .get does not exist and an AttributeError is
raised. -/
def dictGet (v : PyVal) (key : String) (dflt : PyVal) : Except PyErr PyVal :=
  match v with
  | .dict kvs =>
    match kvs.find? (fun kv => kv.1 == key) with
    | .some kv => .ok kv.2
    | .none => .ok dflt
  | _ => .error .attributeError

/-- Python iteration (for x in v): lists yield their elements, strings yield
their one-character substrings, dicts yield their keys; None, booleans and
integers are not iterable and raise TypeError. -/
def pyIter (v : PyVal) : Except PyErr (List PyVal) :=
  match v with
  | .list xs => .ok xs
  | .str s => .ok (s.toList.map fun c => PyVal.str (String.singleton c))
  | .dict kvs => .ok (kvs.map fun kv => PyVal.str kv.1)
  | _ => .error .typeError

/-- Python equality v == t where t is a string: true exactly when v is the
equal string; comparison across types returns False without raising. -/
def pyEqStr (v : PyVal) (t : String) : Bool :=
  match v with
  | .str s => s == t
  | _ => false

/-- Python equality v == 0: an int equal to 0, or False (since False == 0 in
Python); every other value compares unequal without raising. -/
def pyEqZero (v : PyVal) : Bool :=
  match v with
  | .int n => n == 0
  | .bool b => !b
  | _ => false

/-- Inner loop of get_today_contributions (lines 82-84): for each day in the
week, if day.get("date") == today then return day.get("contributionCount", 0).
Returns the value of the first matching day, none when no day matches. -/
def scanDays (today : String) : List PyVal → Except PyErr (Option PyVal)
  | [] => .ok .none
  | day :: rest =>
    match dictGet day "date" .none with
    | .error e => .error e
    | .ok dateV =>
      if pyEqStr dateV today then
        match dictGet day "contributionCount" (.int 0) with
        | .error e => .error e
        | .ok cnt => .ok (.some cnt)
      else scanDays today rest

/-- Outer loop of get_today_contributions (lines 81-84): for each week,
iterate week.get("contributionDays", []) and scan its days. -/
def scanWeeks (today : String) : List PyVal → Except PyErr (Option PyVal)
  | [] => .ok .none
  | week :: rest =>
    match dictGet week "contributionDays" (.list []) with
    | .error e => .error e
    | .ok daysV =>
      match pyIter daysV with
      | .error e => .error e
      | .ok days =>
        match scanDays today days with
        | .error e => .error e
        | .ok (.some c) => .ok (.some c)
        | .ok .none => scanWeeks today rest

/-- Outcome of one HTTP POST: a network-level failure (requests raises a
RequestException), or a response carrying an HTTP status and a decoded JSON
body. -/
inductive FetchOutcome where
  | networkFailure : FetchOutcome
  | response (status : Nat) (body : PyVal) : FetchOutcome

/-- Body of the try block of get_today_contributions (lines 62-86):
raise_for_status, then the chain of .get calls down to "weeks", then the
scan; returns the Python value the function would return on this path. -/
def get_today_body (outcome : FetchOutcome) (today : String) : Except PyErr PyVal :=
  match outcome with
  | .networkFailure => .error .requestException
  | .response status body =>
    if 400 ≤ status then .error .requestException
    else
      match dictGet body "data" (.dict []) with
      | .error e => .error e
      | .ok d1 =>
        match dictGet d1 "user" (.dict []) with
        | .error e => .error e
        | .ok d2 =>
          match dictGet d2 "contributionsCollection" (.dict []) with
          | .error e => .error e
          | .ok d3 =>
            match dictGet d3 "contributionCalendar" (.dict []) with
            | .error e => .error e
            | .ok d4 =>
              match dictGet d4 "weeks" (.list []) with
              | .error e => .error e
              | .ok weeksV =>
                match pyIter weeksV with
                | .error e => .error e
                | .ok weeks =>
                  match scanWeeks today weeks with
                  | .error e => .error e
                  | .ok (.some c) => .ok c
                  | .ok .none => .ok (PyVal.int 0)

/-- The two except clauses shared by get_today_contributions and
get_weekly_contributions (lines 88-93 and 205-210): RequestException, and
KeyError or TypeError, are converted to the sentinel None; any other
exception propagates uncaught. -/
def catchFetchErrors (r : Except PyErr PyVal) : Except PyErr (Option PyVal) :=
  match r with
  | .ok v => .ok (.some v)
  | .error .requestException => .ok .none
  | .error .keyError => .ok .none
  | .error .typeError => .ok .none
  | .error e => .error e

/-- GrassChecker.get_today_contributions (lines 30-93).  The result is
.ok none for the Python return value None (fetch failure sentinel),
.ok (some v) for a returned count value v, and .error e for an exception
escaping the function. -/
def get_today_contributions (outcome : FetchOutcome) (today : String) :
    Except PyErr (Option PyVal) :=
  catchFetchErrors (get_today_body outcome today)

/-- Body of the try block of get_weekly_contributions (lines 191-203):
raise_for_status, then the chain of .get calls down to
"totalContributions". -/
def get_weekly_body (outcome : FetchOutcome) : Except PyErr PyVal :=
  match outcome with
  | .networkFailure => .error .requestException
  | .response status body =>
    if 400 ≤ status then .error .requestException
    else
      match dictGet body "data" (.dict []) with
      | .error e => .error e
      | .ok d1 =>
        match dictGet d1 "user" (.dict []) with
        | .error e => .error e
        | .ok d2 =>
          match dictGet d2 "contributionsCollection" (.dict []) with
          | .error e => .error e
          | .ok d3 =>
            match dictGet d3 "contributionCalendar" (.dict []) with
            | .error e => .error e
            | .ok d4 => dictGet d4 "totalContributions" (.int 0)

/-- GrassChecker.get_weekly_contributions (lines 157-210), with the HTTP
outcome dependency-injected. -/
def get_weekly_contributions (outcome : FetchOutcome) : Except PyErr (Option PyVal) :=
  catchFetchErrors (get_weekly_body outcome)

/-- A day entry of the contribution calendar as the GitHub API documents it:
an ISO date string and a contribution count. -/
structure Day where
  date : String
  contributionCount : Int
deriving Repr, DecidableEq

/-- JSON encoding of one day: {"contributionCount": n, "date": s}. -/
def encodeDay (d : Day) : PyVal :=
  .dict [("contributionCount", .int d.contributionCount), ("date", .str d.date)]

/-- JSON encoding of one week: {"contributionDays": [...]}. -/
def encodeWeek (w : List Day) : PyVal :=
  .dict [("contributionDays", .list (w.map encodeDay))]

/-- JSON encoding of a full GraphQL response body around a calendar:
{"data": {"user": {"contributionsCollection": {"contributionCalendar":
{"weeks": [...]}}}}}. -/
def encodeCalendar (weeks : List (List Day)) : PyVal :=
  .dict [("data", .dict [("user", .dict [("contributionsCollection",
    .dict [("contributionCalendar", .dict [("weeks",
      .list (weeks.map encodeWeek))])])])])]

/-- Zero-padded two-digit rendering, as strftime %m / %d produce. -/
def pad2 (n : Nat) : String :=
  if n < 10 then "0" ++ toString n else toString n

/-- Zero-padded four-digit rendering, as strftime %Y and date.isoformat
produce for the year. -/
def pad4 (n : Nat) : String :=
  if n < 10 then "000" ++ toString n
  else if n < 100 then "00" ++ toString n
  else if n < 1000 then "0" ++ toString n
  else toString n

/-- Convert a day number (days since 1970-01-01, proleptic Gregorian) to a
civil (year, month, day) triple; the standard civil-from-days algorithm, the
same arithmetic datetime.date performs. -/
def civilFromDays (z : Nat) : Nat × Nat × Nat :=
  let z := z + 719468
  let era := z / 146097
  let doe := z % 146097
  let yoe := (doe - doe / 1460 + doe / 36524 - doe / 146096) / 365
  let y := yoe + era * 400
  let doy := doe - (365 * yoe + yoe / 4 - yoe / 100)
  let mp := (5 * doy + 2) / 153
  let d := doy - (153 * mp + 2) / 5 + 1
  let m := if mp < 10 then mp + 3 else mp - 9
  if m ≤ 2 then (y + 1, m, d) else (y, m, d)

/-- Convert a civil date (valid Gregorian date from 1970 on) to its day
number; inverse of civilFromDays. -/
def daysFromCivil (y m d : Nat) : Nat :=
  let y2 := if m ≤ 2 then y - 1 else y
  let era := y2 / 400
  let yoe := y2 % 400
  let mp := (m + 9) % 12
  let doy := (153 * mp + 2) / 5 + d - 1
  let doe := yoe * 365 + yoe / 4 - yoe / 100 + doy
  era * 146097 + doe - 719468

/-- date.isoformat() for a civil triple: YYYY-MM-DD. -/
def isoOfYmd (y m d : Nat) : String :=
  pad4 y ++ "-" ++ pad2 m ++ "-" ++ pad2 d

/-- date.isoformat() for a day number. -/
def isoOfDays (z : Nat) : String :=
  match civilFromDays z with
  | (y, m, d) => isoOfYmd y m d

/-- The GraphQL variables dict built by get_weekly_contributions
(lines 164-166 and 185-189): week_ago = today - timedelta(days=6), and
variables = {userName, from: week_ago.isoformat(), to: today.isoformat()}.
todayDays is today (JST) as a day number. -/
structure WeeklyVars where
  userName : String
  fromDate : String
  toDate : String
deriving Repr, DecidableEq

def get_weekly_request_variables (username : String) (todayDays : Nat) : WeeklyVars :=
  { userName := username
    fromDate := isoOfDays (todayDays - 6)
    toDate := isoOfDays todayDays }

/-- A calendar date in JST, as datetime.now(jst) yields it. -/
structure JstDate where
  year : Nat
  month : Nat
  day : Nat
deriving Repr, DecidableEq

/-- strftime("%Y年%m月%d日") at line 140. -/
def formatJa (d : JstDate) : String :=
  pad4 d.year ++ "年" ++ pad2 d.month ++ "月" ++ pad2 d.day ++ "日"

/-- The message composed at line 141 when today has zero contributions. -/
def noGrassMessage (d : JstDate) : String :=
  "🌱 " ++ formatJa d ++ "の草が生えていません！今日もコミットしましょう！"

/-- The webhook payload built by send_discord_notification (lines 105-107):
{"content": f"<@{discord_user_id}> {message}"}. -/
def send_discord_payload (userId message : String) : PyVal :=
  .dict [("content", .str ("<@" ++ userId ++ "> " ++ message))]

/-- Result of one run of check_and_notify that returns normally: the boolean
the method returns, and the message body passed to send_discord_notification
(none when no send was attempted). -/
structure CheckResult where
  success : Bool
  sentMessage : Option String
deriving Repr, DecidableEq

/-- GrassChecker.check_and_notify (lines 121-155).  fetchRes is the result of
the embedded get_today_contributions call; sendOk is the boolean
send_discord_notification would return if invoked.  On the
contributions-not-zero branch (lines 149-155) the local variable message is
read without ever being assigned on that path, so Python raises
UnboundLocalError before any send happens. -/
def check_and_notify (d : JstDate) (fetchRes : Except PyErr (Option PyVal))
    (sendOk : Bool) : Except PyErr CheckResult :=
  match fetchRes with
  | .error e => .error e
  | .ok .none => .ok { success := false, sentMessage := .none }
  | .ok (.some contributions) =>
    if pyEqZero contributions then
      let message := noGrassMessage d
      if sendOk then .ok { success := true, sentMessage := .some message }
      else .ok { success := false, sentMessage := .some message }
    else
      .error .unboundLocalError

/-- The four environment variables read by main (lines 216-219); os.getenv
yields None when a variable is unset. -/
structure Config where
  githubUsername : Option String
  githubToken : Option String
  discordWebhookUrl : Option String
  discordUserId : Option String
deriving Repr, DecidableEq

/-- Python truthiness of an os.getenv result: None and the empty string are
falsy. -/
def truthy (o : Option String) : Bool :=
  match o with
  | .none => false
  | .some s => !s.isEmpty

/-- all([github_username, github_token, discord_webhook_url,
discord_user_id]) at line 222. -/
def configOk (c : Config) : Bool :=
  truthy c.githubUsername && truthy c.githubToken &&
    truthy c.discordWebhookUrl && truthy c.discordUserId

/-- Counters of the outbound network activity of one process run. -/
structure Trace where
  githubCalls : Nat
  discordCalls : Nat
  weeklyFetches : Nat
  weeklySends : Nat
deriving Repr, DecidableEq

def Trace.start : Trace := ⟨0, 0, 0, 0⟩

/-- Process monad for main: throwing models process termination with the
given exit status (sys.exit, or the interpreter dying on an uncaught
exception); the state records the network calls made so far. -/
abbrev ProcM := ExceptT Nat (StateM Trace)

/-- main (lines 213-249).  The config check, then check_and_notify (whose
GitHub POST and optional Discord POST are recorded in the trace), then the
unconditional sys.exit of line 239, then — only reachable if no earlier
statement terminated the process — the weekly-summary block of
lines 241-249. -/
def mainRun (cfg : Config) (todayStr : String) (d : JstDate)
    (todayOutcome : FetchOutcome) (sendOk : Bool) (weekday : Nat)
    (weeklyOutcome : FetchOutcome) : ProcM Unit := do
  if configOk cfg = false then
    throw 1
  modify fun t => { t with githubCalls := t.githubCalls + 1 }
  match check_and_notify d (get_today_contributions todayOutcome todayStr) sendOk with
  | .error _ => (throw 1 : ProcM Unit)
  | .ok r => do
    if r.sentMessage.isSome then
      modify fun t => { t with discordCalls := t.discordCalls + 1 }
    (throw (if r.success then 0 else 1) : ProcM Unit)
  if weekday == 5 then
    modify fun t => { t with weeklyFetches := t.weeklyFetches + 1,
                             githubCalls := t.githubCalls + 1 }
    match get_weekly_contributions weeklyOutcome with
    | .error _ => throw 1
    | .ok .none => pure ()
    | .ok (.some _) =>
      modify fun t => { t with weeklySends := t.weeklySends + 1,
                               discordCalls := t.discordCalls + 1 }

/-- Run main from a fresh process: the Except value is the exit status
(error n = terminated with status n; ok = main returned normally, in which
case Python exits 0), paired with the trace of network calls. -/
def mainResult (cfg : Config) (todayStr : String) (d : JstDate)
    (todayOutcome : FetchOutcome) (sendOk : Bool) (weekday : Nat)
    (weeklyOutcome : FetchOutcome) : Except Nat Unit × Trace :=
  ((mainRun cfg todayStr d todayOutcome sendOk weekday weeklyOutcome).run).run Trace.start

/-- The process exit code of one run of the script. -/
def mainExitCode (cfg : Config) (todayStr : String) (d : JstDate)
    (todayOutcome : FetchOutcome) (sendOk : Bool) (weekday : Nat)
    (weeklyOutcome : FetchOutcome) : Nat :=
  match (mainResult cfg todayStr d todayOutcome sendOk weekday weeklyOutcome).1 with
  | .error n => n
  | .ok _ => 0

/-- An environment value is present and non-empty (the truthiness condition
the config check of line 222 tests). -/
def fieldNonEmpty (o : Option String) : Prop :=
  ∃ s, o = .some s ∧ s ≠ ""

/-! ## Helper lemmas -/

theorem unique_find? {α : Type} {p : α → Bool} {a : α} :
    ∀ l : List α, a ∈ l → p a = true → (∀ b ∈ l, p b = true → b = a) →
      l.find? p = some a := by
  intro l
  induction l with
  | nil => intro h; cases h
  | cons x xs ih =>
    intro hmem hp hu
    cases hx : p x with
    | true =>
      simp only [List.find?, hx]
      rw [hu x (List.mem_cons_self x xs) hx]
    | false =>
      simp only [List.find?, hx]
      apply ih
      · rcases List.mem_cons.mp hmem with h | h
        · subst h; rw [hp] at hx; cases hx
        · exact h
      · exact hp
      · intro b hb hpb; exact hu b (List.mem_cons_of_mem _ hb) hpb

theorem scanDays_encode (today : String) (w : List Day) :
    scanDays today (w.map encodeDay) =
      .ok ((w.find? fun d => d.date == today).map fun d =>
        PyVal.int d.contributionCount) := by
  induction w with
  | nil => rfl
  | cons d rest ih =>
    have h1 : scanDays today (List.map encodeDay (d :: rest)) =
        if d.date == today then
          Except.ok (Option.some (PyVal.int d.contributionCount))
        else scanDays today (rest.map encodeDay) := rfl
    rw [h1]
    cases hd : d.date == today with
    | true => simp [List.find?, hd]
    | false => simp [List.find?, hd, ih]

theorem scanWeeks_encode (today : String) (weeks : List (List Day)) :
    scanWeeks today (weeks.map encodeWeek) =
      .ok ((weeks.flatten.find? fun d => d.date == today).map fun d =>
        PyVal.int d.contributionCount) := by
  induction weeks with
  | nil => rfl
  | cons w ws ih =>
    have h1 : scanWeeks today (List.map encodeWeek (w :: ws)) =
        match scanDays today (w.map encodeDay) with
        | .error e => .error e
        | .ok (.some c) => .ok (.some c)
        | .ok .none => scanWeeks today (ws.map encodeWeek) := rfl
    rw [h1, scanDays_encode]
    cases hf : w.find? (fun d => d.date == today) with
    | some d => simp [List.flatten_cons, List.find?_append, hf]
    | none => simp [List.flatten_cons, List.find?_append, hf, ih]

theorem get_today_encode (weeks : List (List Day)) (today : String) :
    get_today_contributions (.response 200 (encodeCalendar weeks)) today =
      .ok (.some ((weeks.flatten.find? fun d => d.date == today).elim
        (PyVal.int 0) fun d => PyVal.int d.contributionCount)) := by
  have h1 : get_today_contributions (.response 200 (encodeCalendar weeks)) today =
      catchFetchErrors (match scanWeeks today (weeks.map encodeWeek) with
        | .error e => .error e
        | .ok (.some c) => .ok c
        | .ok .none => .ok (PyVal.int 0)) := rfl
  rw [h1, scanWeeks_encode]
  cases hf : weeks.flatten.find? (fun d => d.date == today) with
  | some d => rfl
  | none => rfl

theorem dictGet_error {v : PyVal} {key : String} {dflt : PyVal} {e : PyErr}
    (h : dictGet v key dflt = .error e) : e = .attributeError := by
  unfold dictGet at h
  split at h
  · split at h <;> exact Except.noConfusion h
  · injection h with h; exact h.symm

theorem pyIter_error {v : PyVal} {e : PyErr}
    (h : pyIter v = .error e) : e = .typeError := by
  unfold pyIter at h
  split at h <;> first
    | exact Except.noConfusion h
    | (injection h with h; exact h.symm)

theorem scanDays_error {today : String} {l : List PyVal} {e : PyErr}
    (h : scanDays today l = .error e) : e = .attributeError := by
  induction l with
  | nil => exact Except.noConfusion h
  | cons day rest ih =>
    unfold scanDays at h
    split at h
    next heq => injection h with h; exact h ▸ dictGet_error heq
    next dateV heq =>
      split at h
      · split at h
        next heq2 => injection h with h; exact h ▸ dictGet_error heq2
        next => exact Except.noConfusion h
      · exact ih h

theorem scanWeeks_error {today : String} {l : List PyVal} {e : PyErr}
    (h : scanWeeks today l = .error e) :
    e = .attributeError ∨ e = .typeError := by
  induction l with
  | nil => exact Except.noConfusion h
  | cons week rest ih =>
    unfold scanWeeks at h
    split at h
    next heq => injection h with h; exact Or.inl (h ▸ dictGet_error heq)
    next daysV heq =>
      split at h
      next heq2 => injection h with h; exact Or.inr (h ▸ pyIter_error heq2)
      next days heq2 =>
        split at h
        next heq3 => injection h with h; exact Or.inl (h ▸ scanDays_error heq3)
        next => exact Except.noConfusion h
        next => exact ih h

theorem get_today_body_error {outcome : FetchOutcome} {today : String}
    {e : PyErr} (h : get_today_body outcome today = .error e) :
    e = .requestException ∨ e = .typeError ∨ e = .attributeError := by
  unfold get_today_body at h
  repeat' split at h
  all_goals first
    | exact Except.noConfusion h
    | (injection h with h; subst h;
       first
         | exact Or.inl rfl
         | exact Or.inr (Or.inr (dictGet_error (by assumption)))
         | exact Or.inr (Or.inl (pyIter_error (by assumption)))
         | (rcases scanWeeks_error (by assumption) with h2 | h2
            · exact Or.inr (Or.inr h2)
            · exact Or.inr (Or.inl h2)))

theorem get_weekly_body_error {outcome : FetchOutcome} {e : PyErr}
    (h : get_weekly_body outcome = .error e) :
    e = .requestException ∨ e = .typeError ∨ e = .attributeError := by
  unfold get_weekly_body at h
  repeat' split at h
  all_goals first
    | exact Except.noConfusion h
    | (injection h with h; subst h;
       first
         | exact Or.inl rfl
         | exact Or.inr (Or.inr (dictGet_error (by assumption))))
    | exact Or.inr (Or.inr (dictGet_error h))

theorem get_today_error {outcome : FetchOutcome} {today : String} {e : PyErr}
    (h : get_today_contributions outcome today = .error e) :
    e = .attributeError := by
  unfold get_today_contributions at h
  cases hb : get_today_body outcome today with
  | ok v => rw [hb] at h; exact Except.noConfusion h
  | error e1 =>
    rw [hb] at h
    rcases get_today_body_error hb with h1 | h1 | h1 <;> subst h1 <;>
      simp [catchFetchErrors] at h
    exact h.symm

theorem get_weekly_error {outcome : FetchOutcome} {e : PyErr}
    (h : get_weekly_contributions outcome = .error e) :
    e = .attributeError := by
  unfold get_weekly_contributions at h
  cases hb : get_weekly_body outcome with
  | ok v => rw [hb] at h; exact Except.noConfusion h
  | error e1 =>
    rw [hb] at h
    rcases get_weekly_body_error hb with h1 | h1 | h1 <;> subst h1 <;>
      simp [catchFetchErrors] at h
    exact h.symm

theorem check_and_notify_ok {d : JstDate} {fr : Except PyErr (Option PyVal)}
    {sendOk : Bool} {r : CheckResult}
    (h : check_and_notify d fr sendOk = .ok r) :
    (fr = .ok .none ∧ r = ⟨false, .none⟩)
    ∨ (∃ c, fr = .ok (.some c) ∧ pyEqZero c = true
        ∧ r = ⟨sendOk, .some (noGrassMessage d)⟩) := by
  unfold check_and_notify at h
  split at h
  · exact Except.noConfusion h
  · injection h with h; exact Or.inl ⟨rfl, h.symm⟩
  next c =>
    by_cases hz : pyEqZero c = true
    · rw [if_pos hz] at h
      cases sendOk
      · simp only [Bool.false_eq_true, if_false] at h
        injection h with h
        exact Or.inr ⟨c, rfl, hz, h.symm⟩
      · simp only [if_true] at h
        injection h with h
        exact Or.inr ⟨c, rfl, hz, h.symm⟩
    · rw [if_neg hz] at h
      exact Except.noConfusion h

theorem check_and_notify_err {d : JstDate} {fr : Except PyErr (Option PyVal)}
    {sendOk : Bool} {e : PyErr}
    (h : check_and_notify d fr sendOk = .error e) :
    (fr = .error e)
    ∨ (∃ c, fr = .ok (.some c) ∧ pyEqZero c = false
        ∧ e = .unboundLocalError) := by
  unfold check_and_notify at h
  split at h
  next e1 =>
    injection h with h; subst h; exact Or.inl rfl
  · exact Except.noConfusion h
  next c =>
    by_cases hz : pyEqZero c = true
    · rw [if_pos hz] at h
      cases sendOk <;> simp at h
    · rw [if_neg hz] at h
      injection h with h
      exact Or.inr ⟨c, rfl, Bool.not_eq_true _ ▸ hz, h.symm⟩

theorem truthy_true_iff (o : Option String) :
    truthy o = true ↔ fieldNonEmpty o := by
  cases o with
  | none => simp [truthy, fieldNonEmpty]
  | some s =>
    simp only [truthy, fieldNonEmpty, Bool.not_eq_true']
    constructor
    · intro h
      refine ⟨s, rfl, fun hs => ?_⟩
      subst hs
      exact absurd h (by decide)
    · rintro ⟨t, ht, hne⟩
      injection ht with ht
      subst ht
      cases he : s.isEmpty
      · rfl
      · exact absurd ((String.isEmpty_iff s).mp he) hne

theorem mainResult_eq (cfg : Config) (todayStr : String) (d : JstDate)
    (tOut : FetchOutcome) (sendOk : Bool) (wd : Nat) (wOut : FetchOutcome) :
    mainResult cfg todayStr d tOut sendOk wd wOut =
      if configOk cfg = false then (.error 1, Trace.start)
      else
        match check_and_notify d (get_today_contributions tOut todayStr) sendOk with
        | .error _ => (.error 1, ⟨1, 0, 0, 0⟩)
        | .ok r =>
          if r.sentMessage.isSome then
            (.error (if r.success then 0 else 1), ⟨1, 1, 0, 0⟩)
          else
            (.error (if r.success then 0 else 1), ⟨1, 0, 0, 0⟩) := by
  unfold mainResult mainRun
  cases hc : configOk cfg with
  | false => rfl
  | true =>
    cases hr : check_and_notify d (get_today_contributions tOut todayStr) sendOk with
    | error e => rfl
    | ok r =>
      cases r with
      | mk su sm => cases su <;> cases sm <;> rfl

/-! ## Claims -/

/-- C1: for every contribution calendar returned by the API that contains a
day whose date string equals the ISO date of today computed in JST,
get_today_contributions returns exactly that day's contributionCount. -/
theorem c1_returns_todays_count (weeks : List (List Day)) (today : String)
    (d : Day) (hmem : d ∈ weeks.flatten) (hdate : d.date = today)
    (huniq : ∀ e ∈ weeks.flatten, e.date = today → e = d) :
    get_today_contributions (.response 200 (encodeCalendar weeks)) today =
      .ok (.some (.int d.contributionCount)) := by
  rw [get_today_encode]
  have hf : weeks.flatten.find? (fun e => e.date == today) = some d := by
    apply unique_find? _ hmem
    · exact beq_iff_eq.mpr hdate
    · intro b hb hpb
      exact huniq b hb (beq_iff_eq.mp hpb)
  rw [hf]
  rfl

theorem c1_witness :
    ((⟨"2024-06-15", 5⟩ : Day) ∈
        [[(⟨"2024-06-14", 3⟩ : Day)],
         [⟨"2024-06-15", 5⟩, ⟨"2024-06-16", 1⟩]].flatten)
    ∧ get_today_contributions
        (.response 200 (encodeCalendar
          [[⟨"2024-06-14", 3⟩], [⟨"2024-06-15", 5⟩, ⟨"2024-06-16", 1⟩]]))
        "2024-06-15" = .ok (.some (.int 5)) :=
  ⟨by decide,
   c1_returns_todays_count _ _ ⟨"2024-06-15", 5⟩ (by decide) (by decide) (by decide)⟩

/-- C2: for every contribution calendar that contains no day whose date
equals the JST ISO date of today (including the empty calendar),
get_today_contributions returns the count 0 rather than an error. -/
theorem c2_returns_zero_when_no_match (weeks : List (List Day)) (today : String)
    (h : ∀ e ∈ weeks.flatten, e.date ≠ today) :
    get_today_contributions (.response 200 (encodeCalendar weeks)) today =
      .ok (.some (.int 0)) := by
  rw [get_today_encode]
  have hf : weeks.flatten.find? (fun e => e.date == today) = none :=
    List.find?_eq_none.mpr fun x hx => by simpa using h x hx
  rw [hf]
  rfl

theorem c2_witness :
    get_today_contributions (.response 200 (encodeCalendar [])) "2024-06-15"
      = .ok (.some (.int 0))
    ∧ get_today_contributions
        (.response 200 (encodeCalendar [[⟨"2024-06-14", 3⟩]])) "2024-06-15"
      = .ok (.some (.int 0)) :=
  ⟨c2_returns_zero_when_no_match [] "2024-06-15" (by decide),
   c2_returns_zero_when_no_match [[⟨"2024-06-14", 3⟩]] "2024-06-15" (by decide)⟩

/-- C3 counterexample: a response whose "data" field holds a string where an
object is expected makes get_today_contributions and
get_weekly_contributions raise an uncaught AttributeError (the except
clauses only catch RequestException, KeyError and TypeError), so the claim
that every malformed response shape yields the None sentinel or a count is
false. -/
theorem c3_counterexample :
    get_today_contributions
        (.response 200 (.dict [("data", .str "oops")])) "2024-06-15"
      = .error .attributeError
    ∧ get_weekly_contributions (.response 200 (.dict [("data", .str "oops")]))
      = .error .attributeError :=
  ⟨rfl, rfl⟩

/-- C3 amended: on network failure or a non-success HTTP status both
fetchers return the None sentinel, and the only exception that can escape
either fetcher is AttributeError (raised when a non-dict value sits where
an object is expected); KeyError and TypeError shapes are caught. -/
theorem c3_fetch_error_behaviour (outcome : FetchOutcome) (today : String) :
    get_today_contributions .networkFailure today = .ok .none
    ∧ get_weekly_contributions .networkFailure = .ok .none
    ∧ (∀ s b, 400 ≤ s →
        get_today_contributions (.response s b) today = .ok .none)
    ∧ (∀ s b, 400 ≤ s → get_weekly_contributions (.response s b) = .ok .none)
    ∧ (∀ e, get_today_contributions outcome today = .error e →
        e = .attributeError)
    ∧ (∀ e, get_weekly_contributions outcome = .error e →
        e = .attributeError) := by
  refine ⟨rfl, rfl, ?_, ?_, ?_, ?_⟩
  · intro s b hs
    unfold get_today_contributions
    simp only [get_today_body]
    rw [if_pos hs]
    rfl
  · intro s b hs
    unfold get_weekly_contributions
    simp only [get_weekly_body]
    rw [if_pos hs]
    rfl
  · intro e h
    exact get_today_error h
  · intro e h
    exact get_weekly_error h

theorem c3_witness :
    (400 ≤ 404
      ∧ get_today_contributions (.response 404 (.dict [])) "2024-01-01" = .ok .none
      ∧ get_weekly_contributions (.response 404 (.dict [])) = .ok .none)
    ∧ (get_today_contributions (.response 200 (.dict [("data", .int 3)]))
          "2024-01-01" = .error .attributeError
      ∧ PyErr.attributeError = .attributeError) :=
  ⟨⟨by decide,
    (c3_fetch_error_behaviour (.response 404 (.dict [])) "2024-01-01").2.2.1
      404 (.dict []) (by decide),
    (c3_fetch_error_behaviour (.response 404 (.dict [])) "2024-01-01").2.2.2.1
      404 (.dict []) (by decide)⟩,
   ⟨rfl,
    (c3_fetch_error_behaviour (.response 200 (.dict [("data", .int 3)]))
        "2024-01-01").2.2.2.2.1 .attributeError rfl⟩⟩

/-- C4: the claim says a count greater than zero leads to a composed
"success" message sent via the notifier; in the code the else branch of
check_and_notify reads the local variable message that is never assigned on
that path, so the run raises UnboundLocalError instead: no message is
composed, nothing is sent to Discord, and the process dies with status 1. -/
theorem c4_positive_count_crashes :
    check_and_notify ⟨2024, 6, 15⟩ (.ok (.some (.int 1))) true
      = .error .unboundLocalError
    ∧ mainResult ⟨.some "user", .some "token", .some "hook", .some "123"⟩
        "2024-06-15" ⟨2024, 6, 15⟩
        (.response 200 (encodeCalendar [[⟨"2024-06-15", 1⟩]])) true 0
        .networkFailure
      = (.error 1, ⟨1, 0, 0, 0⟩) :=
  ⟨rfl, rfl⟩

/-- C5: with complete configuration, a successful fetch of the daily count
followed by a successful notification send exits with code 0; a fetch
failure (the None sentinel), or an attempted send that fails, exits with
code 1. -/
theorem c5_exit_codes (cfg : Config) (todayStr : String) (d : JstDate)
    (tOut : FetchOutcome) (sendOk : Bool) (wd : Nat) (wOut : FetchOutcome)
    (hcfg : configOk cfg = true) :
    ((∃ c r, get_today_contributions tOut todayStr = .ok (.some c)
        ∧ check_and_notify d (get_today_contributions tOut todayStr) sendOk = .ok r
        ∧ r.sentMessage.isSome = true ∧ sendOk = true)
      → mainExitCode cfg todayStr d tOut sendOk wd wOut = 0)
    ∧ (get_today_contributions tOut todayStr = .ok .none
      → mainExitCode cfg todayStr d tOut sendOk wd wOut = 1)
    ∧ ((∃ c r, get_today_contributions tOut todayStr = .ok (.some c)
        ∧ check_and_notify d (get_today_contributions tOut todayStr) sendOk = .ok r
        ∧ r.sentMessage.isSome = true ∧ sendOk = false)
      → mainExitCode cfg todayStr d tOut sendOk wd wOut = 1) := by
  refine ⟨?_, ?_, ?_⟩
  · rintro ⟨c, r, hf, hcn, hsent, hsend⟩
    rcases check_and_notify_ok hcn with ⟨hfr, hr⟩ | ⟨c2, hfr, hz, hr⟩
    · rw [hf] at hfr
      injection hfr with hfr
      exact Option.noConfusion hfr
    · subst hr hsend
      unfold mainExitCode
      rw [mainResult_eq]
      simp [hcfg, hcn]
  · intro hf
    unfold mainExitCode
    rw [mainResult_eq]
    rw [hf]
    have hcn : check_and_notify d (Except.ok Option.none) sendOk
        = .ok ⟨false, .none⟩ := rfl
    simp [hcfg, hcn]
  · rintro ⟨c, r, hf, hcn, hsent, hsend⟩
    rcases check_and_notify_ok hcn with ⟨hfr, hr⟩ | ⟨c2, hfr, hz, hr⟩
    · rw [hf] at hfr
      injection hfr with hfr
      exact Option.noConfusion hfr
    · subst hr hsend
      unfold mainExitCode
      rw [mainResult_eq]
      simp [hcfg, hcn]

theorem c5_witness :
    mainExitCode ⟨.some "u", .some "t", .some "w", .some "123"⟩ "2024-06-15"
        ⟨2024, 6, 15⟩ (.response 200 (encodeCalendar [[⟨"2024-06-15", 0⟩]]))
        true 0 .networkFailure = 0
    ∧ mainExitCode ⟨.some "u", .some "t", .some "w", .some "123"⟩ "2024-06-15"
        ⟨2024, 6, 15⟩ .networkFailure true 0 .networkFailure = 1 :=
  ⟨(c5_exit_codes _ _ ⟨2024, 6, 15⟩ _ true 0 .networkFailure (by decide)).1
      ⟨.int 0, ⟨true, .some (noGrassMessage ⟨2024, 6, 15⟩)⟩, rfl, rfl, rfl, rfl⟩,
   (c5_exit_codes _ _ ⟨2024, 6, 15⟩ _ true 0 .networkFailure (by decide)).2.1 rfl⟩

/-- C6: if any of the four configuration values is absent or empty the
process exits with code 1 before any network call (the run result is exit
status 1 with the zero trace); conversely, when all four are present and
non-empty the run proceeds past the configuration check and performs the
GitHub fetch. -/
theorem c6_config_gate (cfg : Config) (todayStr : String) (d : JstDate)
    (tOut : FetchOutcome) (sendOk : Bool) (wd : Nat) (wOut : FetchOutcome) :
    ((¬ fieldNonEmpty cfg.githubUsername ∨ ¬ fieldNonEmpty cfg.githubToken
        ∨ ¬ fieldNonEmpty cfg.discordWebhookUrl
        ∨ ¬ fieldNonEmpty cfg.discordUserId)
      → mainResult cfg todayStr d tOut sendOk wd wOut = (.error 1, Trace.start)
        ∧ (mainResult cfg todayStr d tOut sendOk wd wOut).2.githubCalls = 0
        ∧ (mainResult cfg todayStr d tOut sendOk wd wOut).2.discordCalls = 0)
    ∧ ((fieldNonEmpty cfg.githubUsername ∧ fieldNonEmpty cfg.githubToken
        ∧ fieldNonEmpty cfg.discordWebhookUrl ∧ fieldNonEmpty cfg.discordUserId)
      → 1 ≤ (mainResult cfg todayStr d tOut sendOk wd wOut).2.githubCalls) := by
  constructor
  · intro hbad
    have hc : configOk cfg = false := by
      have hone : truthy cfg.githubUsername = false
          ∨ truthy cfg.githubToken = false
          ∨ truthy cfg.discordWebhookUrl = false
          ∨ truthy cfg.discordUserId = false := by
        rcases hbad with h | h | h | h
        · exact Or.inl (by
            cases hb : truthy cfg.githubUsername
            · rfl
            · exact absurd ((truthy_true_iff _).mp hb) h)
        · refine Or.inr (Or.inl ?_)
          cases hb : truthy cfg.githubToken
          · rfl
          · exact absurd ((truthy_true_iff _).mp hb) h
        · refine Or.inr (Or.inr (Or.inl ?_))
          cases hb : truthy cfg.discordWebhookUrl
          · rfl
          · exact absurd ((truthy_true_iff _).mp hb) h
        · refine Or.inr (Or.inr (Or.inr ?_))
          cases hb : truthy cfg.discordUserId
          · rfl
          · exact absurd ((truthy_true_iff _).mp hb) h
      rcases hone with h | h | h | h <;> simp [configOk, h]
    rw [mainResult_eq, if_pos hc]
    exact ⟨rfl, rfl, rfl⟩
  · rintro ⟨h1, h2, h3, h4⟩
    have hc : configOk cfg = true := by
      simp only [configOk, Bool.and_eq_true]
      exact ⟨⟨⟨(truthy_true_iff _).mpr h1, (truthy_true_iff _).mpr h2⟩,
        (truthy_true_iff _).mpr h3⟩, (truthy_true_iff _).mpr h4⟩
    rw [mainResult_eq]
    simp only [hc]
    cases hcn : check_and_notify d (get_today_contributions tOut todayStr) sendOk with
    | error e => simp
    | ok r => cases hsm : r.sentMessage.isSome <;> simp [hsm]

theorem c6_witness :
    (mainResult ⟨.none, .some "t", .some "w", .some "i"⟩ "2024-01-01"
        ⟨2024, 1, 1⟩ .networkFailure true 0 .networkFailure
      = (.error 1, Trace.start))
    ∧ 1 ≤ (mainResult ⟨.some "u", .some "t", .some "w", .some "i"⟩ "2024-01-01"
        ⟨2024, 1, 1⟩ .networkFailure true 0 .networkFailure).2.githubCalls :=
  ⟨((c6_config_gate ⟨.none, .some "t", .some "w", .some "i"⟩ "2024-01-01"
      ⟨2024, 1, 1⟩ .networkFailure true 0 .networkFailure).1
      (Or.inl (by simp [fieldNonEmpty]))).1,
   (c6_config_gate ⟨.some "u", .some "t", .some "w", .some "i"⟩ "2024-01-01"
      ⟨2024, 1, 1⟩ .networkFailure true 0 .networkFailure).2
      ⟨⟨"u", rfl, by decide⟩, ⟨"t", rfl, by decide⟩,
       ⟨"w", rfl, by decide⟩, ⟨"i", rfl, by decide⟩⟩⟩

/-- C7: the weekly query always uses an inclusive 7-day JST window: the from
variable renders the day exactly 6 days before the to variable, the to
variable renders today, and for today = 2024-06-15 the request is
from = 2024-06-09, to = 2024-06-15. -/
theorem c7_weekly_window (u : String) (n : Nat) (h6 : 6 ≤ n) :
    (get_weekly_request_variables u n).toDate = isoOfDays n
    ∧ (get_weekly_request_variables u n).fromDate = isoOfDays (n - 6)
    ∧ n - 6 + 6 = n
    ∧ get_weekly_request_variables u (daysFromCivil 2024 6 15)
      = ⟨u, "2024-06-09", "2024-06-15"⟩ := by
  refine ⟨rfl, rfl, Nat.sub_add_cancel h6, ?_⟩
  unfold get_weekly_request_variables
  have h1 : isoOfDays (daysFromCivil 2024 6 15 - 6) = "2024-06-09" := rfl
  have h2 : isoOfDays (daysFromCivil 2024 6 15) = "2024-06-15" := rfl
  rw [h1, h2]

theorem c7_witness :
    6 ≤ daysFromCivil 2024 6 15
    ∧ get_weekly_request_variables "octocat" (daysFromCivil 2024 6 15)
      = ⟨"octocat", "2024-06-09", "2024-06-15"⟩ :=
  ⟨by decide,
   (c7_weekly_window "octocat" (daysFromCivil 2024 6 15) (by decide)).2.2.2⟩

/-- C8: the webhook payload content is exactly the mention token for the
configured recipient, one space, then the message body; in particular
recipient 123 with body "hello" gives content "<@123> hello". -/
theorem c8_mention_format (rid body : String) :
    send_discord_payload rid body
      = .dict [("content", .str (("<@" ++ rid ++ ">") ++ " " ++ body))]
    ∧ send_discord_payload "123" "hello"
      = .dict [("content", .str "<@123> hello")] := by
  constructor
  · unfold send_discord_payload
    have h1 : "<@" ++ rid ++ "> " ++ body = ("<@" ++ rid ++ ">") ++ " " ++ body := by
      have h2 : "<@" ++ rid ++ "> " = ("<@" ++ rid ++ ">") ++ " " := by
        rw [String.append_assoc ("<@" ++ rid) ">" " "]
        rfl
      rw [h2]
    rw [h1]
  · rfl

/-- C9: whenever the fetched count for today is 0, check_and_notify sends a
message that contains today's JST date rendered as YYYY年MM月DD日 and the
text saying the grass has not grown (no contributions were made). -/
theorem c9_zero_count_message (d : JstDate) (sendOk : Bool) :
    ∃ m, check_and_notify d (.ok (.some (.int 0))) sendOk
        = .ok ⟨sendOk, .some m⟩
      ∧ (∃ pre post, m = pre ++ formatJa d ++ post)
      ∧ (∃ pre post, m = pre ++ "草が生えていません" ++ post) := by
  refine ⟨noGrassMessage d, ?_,
    ⟨"🌱 ", "の草が生えていません！今日もコミットしましょう！", ?_⟩,
    ⟨"🌱 " ++ formatJa d ++ "の", "！今日もコミットしましょう！", ?_⟩⟩
  · cases sendOk <;> rfl
  · rfl
  · unfold noGrassMessage
    have hS : "の草が生えていません！今日もコミットしましょう！"
        = "の" ++ "草が生えていません" ++ "！今日もコミットしましょう！" := rfl
    rw [hS]
    simp [String.append_assoc]

/-- C10: in every run of main the weekly-summary path is dead code: main
always terminates by an exit (the run result is an error status, never a
normal return), get_weekly_contributions is never invoked and no
weekly-summary notification is ever sent, whatever the weekday. -/
theorem c10_weekly_path_unreachable (cfg : Config) (todayStr : String)
    (d : JstDate) (tOut : FetchOutcome) (sendOk : Bool) (wd : Nat)
    (wOut : FetchOutcome) :
    (∃ n, (mainResult cfg todayStr d tOut sendOk wd wOut).1 = .error n)
    ∧ (mainResult cfg todayStr d tOut sendOk wd wOut).2.weeklyFetches = 0
    ∧ (mainResult cfg todayStr d tOut sendOk wd wOut).2.weeklySends = 0 := by
  rw [mainResult_eq]
  by_cases hc : configOk cfg = false
  · rw [if_pos hc]
    exact ⟨⟨1, rfl⟩, rfl, rfl⟩
  · rw [if_neg hc]
    cases hcn : check_and_notify d (get_today_contributions tOut todayStr) sendOk with
    | error e => exact ⟨⟨1, rfl⟩, rfl, rfl⟩
    | ok r =>
      cases hsm : r.sentMessage.isSome <;> simp [hsm]
